import Mathlib

/-!
Shallow embedding of src/converter_gif.py (WEBM to GIF converter) and
verification of its specification claims.

The program orchestrates two external binaries (ffmpeg and ImageMagick)
through a three-stage pipeline: frame extraction, palette generation and
GIF assembly.  External processes are modelled as an oracle
(a function from a command to its exit code and captured output), the
executable-path lookup shutil.which as a function from a binary name to
an optional path, and the Tk dialog loop of ask_number as a list of
dialog responses.
-/

namespace Webm2Gif

/-! ## Numeric semantics (converter_gif.py line 93) -/

/-- Round-half-to-even of the rational a/b, as the Python builtin round
computes on the value 100/fps in make_gif_im (line 93).  For every fps with
1 <= fps <= 60 the IEEE double 100/fps rounds to the same integer as the
exact rational: ties occur only at fps = 8 and fps = 40, where 100/fps
(12.5, 2.5) is exactly representable in binary. -/
def pyRoundDiv (a b : ℕ) : ℕ :=
  let q := a / b
  let r := a % b
  if b < 2 * r then q + 1
  else if 2 * r < b then q
  else if q % 2 = 0 then q else q + 1

/-- Per-frame GIF delay in centiseconds, line 93:
delay_cs = max(1, round(100 / float(fps))). -/
def delay_cs (fps : ℕ) : ℕ := max 1 (pyRoundDiv 100 fps)

/-! ## Filter-Chain Builder (converter_gif.py lines 80-90) -/

/-- Frame-rate clause, line 82. -/
def fps_clause (fps : ℕ) : String := "fps=" ++ toString fps

/-- Conditional scale clause, lines 86-88 (after Python string escaping the
runtime text is scale=if(gt(iw\,W)\,W\,iw):-1:flags=lanczos). -/
def scale_clause (max_w : ℕ) : String :=
  "scale=if(gt(iw\\," ++ toString max_w ++ ")\\," ++ toString max_w ++
    "\\,iw):-1:flags=lanczos"

/-- Pixel-format clause, line 89. -/
def format_clause : String := "format=rgba"

/-- Filter list, lines 82-89.  Python appends the scale clause under
`if max_w:`, i.e. when max_w is neither None nor 0 (truthiness). -/
def build_filters (fps : ℕ) (max_w : Option ℕ) : List String :=
  [fps_clause fps] ++
    (match max_w with
      | some w => if w ≠ 0 then [scale_clause w] else []
      | none => []) ++
    [format_clause]

/-- The joined filter-chain string, line 90: vf = ",".join(filters). -/
def vf (fps : ℕ) (max_w : Option ℕ) : String :=
  String.intercalate "," (build_filters fps max_w)

/-- Semantics of the FFmpeg width expression if(gt(iw\,W)\,W\,iw) embedded in
scale_clause: gt(a,b) is 1 exactly when a > b, and if(c,x,y) yields x when c
is nonzero, else y.  Given source width iw, the output width. -/
def scale_out_width (max_w iw : ℕ) : ℕ := if max_w < iw then max_w else iw

/-! ## Tool Locator (converter_gif.py lines 48-59) -/

/-- which abstracts shutil.which: the executable search path lookup. -/
def find_imagemagick (which : String → Option String) : Option String :=
  match which "magick" with
  | some magick => some magick
  | none => which "convert"

/-- Message of the RuntimeError raised at lines 76-78 when neither
ImageMagick binary is found. -/
def im_not_found_msg : String :=
  "ImageMagick not found. Install it (e.g., `sudo apt install -y imagemagick`)."

/-! ## Pipeline Executor (converter_gif.py lines 62-131) -/

/-- An external invocation: subprocess.run with an argument vector
(stages 1 and 2) or with shell=True and a single command line (stage 3). -/
inductive Command
  | argv (args : List String)
  | shell (line : String)
deriving DecidableEq

/-- What one external process invocation produces: exit status and the
captured standard output / standard error (capture_output via PIPE). -/
structure ProcResult where
  exitcode : ℕ
  out : String
  err : String
deriving DecidableEq

/-- subprocess.CalledProcessError as raised by run(..., check=True): carries
the command, the return code and the captured streams. -/
structure CalledProcessError where
  cmd : Command
  returncode : ℕ
  output : String
  stderr : String
deriving DecidableEq

/-- The failure modes of make_gif_im: the RuntimeError of lines 76-78
(spec name ToolNotFound) and CalledProcessError (spec name StageFailed). -/
inductive PipelineError
  | toolNotFound (msg : String)
  | stageFailed (e : CalledProcessError)
deriving DecidableEq

/-- Observable events of one make_gif_im call: creation of the temporary
workspace directory, an external invocation with its exit code, and removal
of the workspace directory together with all files inside it. -/
inductive Ev
  | ws_create
  | invoke (c : Command) (exitcode : ℕ)
  | ws_delete
deriving DecidableEq

/-- subprocess.run(cmd, check=True, ...): a non-zero exit status raises
CalledProcessError carrying the command and the captured streams. -/
def run_checked (runner : Command → ProcResult) (c : Command) :
    Except CalledProcessError ProcResult :=
  let r := runner c
  if r.exitcode ≠ 0 then .error ⟨c, r.exitcode, r.out, r.err⟩ else .ok r

/-- Frame-file pattern inside the workspace, line 101 (os.path.join). -/
def frames_pat (td : String) : String := td ++ "/f_%06d.png"

/-- Frame glob inside the workspace, line 102. -/
def frames_glob (td : String) : String := td ++ "/f_*.png"

/-- Palette path inside the workspace, line 103. -/
def palette_path (td : String) : String := td ++ "/palette.png"

/-- Stage 1 command, line 106: extract frames. -/
def extract_cmd (ffmpeg in_path td : String) (fps : ℕ) (max_w : Option ℕ) :
    Command :=
  .argv [ffmpeg, "-y", "-i", in_path, "-vf", vf fps max_w, frames_pat td]

/-- Stage 2 command, lines 110-118: build the global palette, with the
palettegen clause appended to the same filter chain. -/
def palette_cmd (ffmpeg in_path td : String) (fps : ℕ) (max_w : Option ℕ) :
    Command :=
  .argv [ffmpeg, "-y", "-i", in_path, "-vf",
    vf fps max_w ++ ",palettegen=stats_mode=full", palette_path td]

/-- Stage 3 command, lines 124-128: assemble the GIF with ImageMagick
(shell=True, one command line). -/
def assemble_cmd (im td out_path dither : String) (fps : ℕ) : Command :=
  .shell ("\"" ++ im ++ "\" -delay " ++ toString (delay_cs fps) ++
    " -loop 0 \"" ++ frames_glob td ++ "\" -remap \"" ++ palette_path td ++
    "\" -dither " ++ dither ++ " -layers OptimizeTransparency \"" ++
    out_path ++ "\"")

/-- Default value of the dither keyword parameter in the make_gif_im
signature, line 62. -/
def make_gif_im_dither_default : String := "FloydSteinberg"

/-- make_gif_im, lines 62-131.  The with-statement over
tempfile.TemporaryDirectory is embedded by its contract: the directory is
created on entry and removed, with everything in it, on every exit of the
block, including an exception raised inside.  Returns the outcome together
with the ordered event trace of the call. -/
def make_gif_im (which : String → Option String)
    (runner : Command → ProcResult)
    (ffmpeg in_path out_path td : String) (fps : ℕ) (max_w : Option ℕ)
    (dither : String) : Except PipelineError Unit × List Ev :=
  match find_imagemagick which with
  | none => (.error (.toolNotFound im_not_found_msg), [])
  | some im =>
    let c1 := extract_cmd ffmpeg in_path td fps max_w
    let c2 := palette_cmd ffmpeg in_path td fps max_w
    let c3 := assemble_cmd im td out_path dither fps
    match run_checked runner c1 with
    | .error e =>
      (.error (.stageFailed e),
        [.ws_create, .invoke c1 (runner c1).exitcode, .ws_delete])
    | .ok _ =>
      match run_checked runner c2 with
      | .error e =>
        (.error (.stageFailed e),
          [.ws_create, .invoke c1 (runner c1).exitcode,
            .invoke c2 (runner c2).exitcode, .ws_delete])
      | .ok _ =>
        match run_checked runner c3 with
        | .error e =>
          (.error (.stageFailed e),
            [.ws_create, .invoke c1 (runner c1).exitcode,
              .invoke c2 (runner c2).exitcode,
              .invoke c3 (runner c3).exitcode, .ws_delete])
        | .ok _ =>
          (.ok (),
            [.ws_create, .invoke c1 (runner c1).exitcode,
              .invoke c2 (runner c2).exitcode,
              .invoke c3 (runner c3).exitcode, .ws_delete])

/-- The commands actually invoked in an event trace, in order. -/
def invoked (tr : List Ev) : List Command :=
  tr.filterMap fun e =>
    match e with
    | .invoke c _ => some c
    | _ => none

/-- The dithering algorithm main passes to make_gif_im, line 201. -/
def main_dither : String := "Riemersma"

/-- The conversion call made by main, lines 196-202: every run of the
program invokes make_gif_im with dither = "Riemersma". -/
def main_make_gif (which : String → Option String)
    (runner : Command → ProcResult)
    (ffmpeg in_path out_path td : String) (fps : ℕ) (max_w : Option ℕ) :
    Except PipelineError Unit × List Ev :=
  make_gif_im which runner ffmpeg in_path out_path td fps max_w main_dither

/-- Python str.strip with no arguments: whitespace removed from both
ends. -/
def py_strip (s : String) : String :=
  ⟨((s.data.dropWhile Char.isWhitespace).reverse.dropWhile
      Char.isWhitespace).reverse⟩

/-- Error dialog text of main, lines 218-220: msg = e.stderr.strip() if
e.stderr else str(e); the dialog shows "Conversion failed:\n" + msg.
fallback stands for str(e), the Python rendering of the exception, used
only when no standard error was captured. -/
def report_conversion_failure (fallback : String)
    (e : CalledProcessError) : String :=
  "Conversion failed:\n" ++
    (if e.stderr ≠ "" then py_strip e.stderr else fallback)

/-! ## Parameter Collection (converter_gif.py lines 27-45 and 171-189) -/

/-- Tail of a Python integer literal after its first (digit) character:
decimal digits with single underscores allowed strictly between digits. -/
def py_digit_tail : List Char → Bool
  | [] => true
  | ['_'] => false
  | '_' :: c :: t => c.isDigit && py_digit_tail (c :: t)
  | c :: t => c.isDigit && py_digit_tail t

/-- Whether a sign-free character list is a valid Python int() digit part. -/
def py_digits_ok : List Char → Bool
  | [] => false
  | c :: t => c.isDigit && py_digit_tail t

/-- Numeric value of a digit list, underscores skipped. -/
def digits_to_nat (l : List Char) : ℕ :=
  (l.filter Char.isDigit).foldl (fun acc c => 10 * acc + (c.toNat - 48)) 0

/-- The Python builtin int() on an already stripped string: optional sign,
then decimal digits with single underscores between digits; none models the
ValueError branch of lines 44-45. -/
def py_int? (s : String) : Option ℤ :=
  match s.data with
  | '-' :: t => if py_digits_ok t then some (-(digits_to_nat t : ℤ)) else none
  | '+' :: t => if py_digits_ok t then some ((digits_to_nat t : ℤ)) else none
  | t => if py_digits_ok t then some ((digits_to_nat t : ℤ)) else none

/-- ask_number with integer=True, lines 27-45.  inputs is the sequence of
simpledialog.askstring responses, none meaning the dialog was cancelled.
Result none: the inputs ran out while the loop was still re-prompting;
some none: the function returned None (cancel or blank, lines 31-35);
some (some n): the function returned the accepted integer n (line 43).
Out-of-range (lines 38-42) and unparsable (lines 44-45) responses show an
error dialog and loop. -/
def ask_number_int (minval maxval : ℤ) :
    List (Option String) → Option (Option ℤ)
  | [] => none
  | none :: _ => some none
  | some v :: rest =>
    let val := py_strip v
    if val = "" then some none
    else
      match py_int? val with
      | some num =>
        if num < minval ∨ maxval < num then ask_number_int minval maxval rest
        else some (some num)
      | none => ask_number_int minval maxval rest

/-- Lines 179-180 of main: a None fps from the dialog becomes the
default 15 before any downstream use. -/
def resolve_fps (r : Option ℤ) : ℤ :=
  match r with
  | none => 15
  | some v => v

/-- The fps prompt issued by main, lines 171-178: range 1 to 60. -/
def main_fps_prompt (inputs : List (Option String)) : Option (Option ℤ) :=
  ask_number_int 1 60 inputs

/-- The max-width prompt issued by main, lines 182-189: range 32 to 4096. -/
def main_maxw_prompt (inputs : List (Option String)) : Option (Option ℤ) :=
  ask_number_int 32 4096 inputs

/-! ## Input extension check (converter_gif.py lines 151-155) -/

/-- Python str.lower on one character, for the ASCII range the extension
check concerns: uppercase letters map to lowercase, all else unchanged. -/
def py_char_lower (c : Char) : Char :=
  if 65 ≤ c.toNat ∧ c.toNat ≤ 90 then Char.ofNat (c.toNat + 32) else c

/-- Python str.lower, applied characterwise. -/
def py_lower (s : String) : String := ⟨s.data.map py_char_lower⟩

/-- Python str.endswith: the suffix characters end the string. -/
def py_endswith (s suffix : String) : Bool :=
  List.isSuffixOf suffix.data s.data

/-- Line 151: the continue-anyway confirmation dialog is shown exactly when
in_path.lower() does not end with ".webm". -/
def ext_check_needs_confirm (in_path : String) : Bool :=
  !(py_endswith (py_lower in_path) ".webm")

/-! ## Helper lemmas -/

/-- A string never equals itself with a nonempty suffix appended. -/
lemma ne_append_of_ne_empty (s t : String) (ht : t.length ≠ 0) :
    s ≠ s ++ t := by
  intro he
  have h2 := congrArg String.length he
  rw [String.length_append] at h2
  omega

/-- The extract and palette commands differ: their filter arguments do. -/
lemma extract_cmd_ne_palette_cmd (ffmpeg in_path td : String) (fps : ℕ)
    (mw : Option ℕ) :
    extract_cmd ffmpeg in_path td fps mw ≠ palette_cmd ffmpeg in_path td fps mw := by
  intro h
  simp only [extract_cmd, palette_cmd, Command.argv.injEq, List.cons.injEq,
    and_true, true_and] at h
  exact ne_append_of_ne_empty (vf fps mw) ",palettegen=stats_mode=full"
    (by decide) h.1

/-- Whatever the dialog inputs, an integer the prompt loop returns lies in
the advertised range. -/
lemma ask_number_int_range (lo hi : ℤ) (inputs : List (Option String))
    (n : ℤ) (h : ask_number_int lo hi inputs = some (some n)) :
    lo ≤ n ∧ n ≤ hi := by
  induction inputs with
  | nil => simp [ask_number_int] at h
  | cons head rest ih =>
    cases head with
    | none => simp [ask_number_int] at h
    | some v =>
      simp only [ask_number_int] at h
      split at h
      · simp at h
      · split at h
        · split at h
          · exact ih h
          · simp only [Option.some.injEq] at h
            subst h
            omega
        · exact ih h

/-! ## Claim theorems -/

/-- Claim C1: for every fps in [1,60] accepted by Parameter Collection, the
per-frame delay in centiseconds equals max(1, round(100 / fps)) — in
particular fps=15 gives 7, fps=60 gives 2, fps=1 gives 100 — and the value
is never zero (hence never negative, being a natural) for any positive
fps. -/
theorem C1_delay_formula (fps : ℕ) (_hpos : 0 < fps) :
    1 ≤ delay_cs fps ∧
    (fps ≤ 60 → delay_cs fps = max 1 (pyRoundDiv 100 fps)) ∧
    delay_cs 15 = 7 ∧ delay_cs 60 = 2 ∧ delay_cs 1 = 100 := by
  refine ⟨?_, fun _ => rfl, by decide, by decide, by decide⟩
  simp [delay_cs]

/-- Witness for C1 at fps = 15. -/
theorem C1_delay_formula_witness : delay_cs 15 = 7 :=
  (C1_delay_formula 15 (by decide)).2.2.1

/-- Claim C2: the Filter-Chain Builder yields, in fixed order, the
frame-rate clause, then (only when a max width is present) the conditional
non-upscaling resize clause, then the alpha-preserving pixel-format clause;
the resize semantics cap the width at max_w without ever upscaling; and
identical inputs yield byte-identical strings. -/
theorem C2_filter_chain (fps w iw : ℕ) (hw : 0 < w) :
    vf fps (some w) =
      fps_clause fps ++ "," ++ scale_clause w ++ "," ++ format_clause ∧
    vf fps none = fps_clause fps ++ "," ++ format_clause ∧
    (w < iw → scale_out_width w iw = w) ∧
    (iw ≤ w → scale_out_width w iw = iw) ∧
    scale_out_width w iw ≤ iw ∧
    (∀ fps2 w2, fps = fps2 → w = w2 → vf fps (some w) = vf fps2 (some w2)) := by
  refine ⟨?_, ?_, ?_, ?_, ?_, ?_⟩
  · simp [vf, build_filters, hw.ne', String.intercalate, String.intercalate.go]
  · simp [vf, build_filters, String.intercalate, String.intercalate.go]
  · intro h; simp [scale_out_width, h]
  · intro h; simp [scale_out_width, Nat.not_lt.mpr h]
  · unfold scale_out_width; split <;> omega
  · intro fps2 w2 h1 h2; rw [h1, h2]

/-- Witness for C2 at fps = 15, max width 480, source width 640. -/
theorem C2_filter_chain_witness :
    vf 15 (some 480) =
      fps_clause 15 ++ "," ++ scale_clause 480 ++ "," ++ format_clause ∧
    scale_out_width 480 640 = 480 :=
  ⟨(C2_filter_chain 15 480 640 (by decide)).1,
    (C2_filter_chain 15 480 640 (by decide)).2.2.1 (by decide)⟩

/-- Claim C3: for every (fps, max width) pair, the filter expression of the
palette-generation command equals the filter expression of the extract
command with the full-statistics palettegen clause appended, so both
transcoder passes sample identical frames. -/
theorem C3_palette_filter (ffmpeg in_path td : String) (fps : ℕ)
    (mw : Option ℕ) :
    ∃ v : String,
      extract_cmd ffmpeg in_path td fps mw =
        .argv [ffmpeg, "-y", "-i", in_path, "-vf", v, frames_pat td] ∧
      palette_cmd ffmpeg in_path td fps mw =
        .argv [ffmpeg, "-y", "-i", in_path, "-vf",
          v ++ ",palettegen=stats_mode=full", palette_path td] :=
  ⟨vf fps mw, rfl, rfl⟩

/-- Witness for C3 at fps = 15, max width 480, concrete paths. -/
theorem C3_palette_filter_witness :
    ∃ v : String,
      extract_cmd "ffmpeg" "in.webm" "/ws" 15 (some 480) =
        .argv ["ffmpeg", "-y", "-i", "in.webm", "-vf", v,
          frames_pat "/ws"] ∧
      palette_cmd "ffmpeg" "in.webm" "/ws" 15 (some 480) =
        .argv ["ffmpeg", "-y", "-i", "in.webm", "-vf",
          v ++ ",palettegen=stats_mode=full", palette_path "/ws"] :=
  C3_palette_filter "ffmpeg" "in.webm" "/ws" 15 (some 480)

/-- Claim C4: the three stages run strictly sequentially and stage N+1
never starts if stage N fails: when the extract invocation exits non-zero,
only the extract command is ever invoked (so neither the palette command
nor any shell invocation — the assemble stage is the only shell one — is
started); when extract succeeds and palette exits non-zero, only extract
and palette are invoked and no shell invocation is started. -/
theorem C4_sequential (which : String → Option String)
    (runner : Command → ProcResult)
    (ffmpeg in_path out_path td dither : String) (fps : ℕ)
    (max_w : Option ℕ) :
    ((runner (extract_cmd ffmpeg in_path td fps max_w)).exitcode ≠ 0 →
      (invoked (make_gif_im which runner ffmpeg in_path out_path td fps
          max_w dither).2 = [] ∨
        invoked (make_gif_im which runner ffmpeg in_path out_path td fps
          max_w dither).2 = [extract_cmd ffmpeg in_path td fps max_w]) ∧
      palette_cmd ffmpeg in_path td fps max_w ∉
        invoked (make_gif_im which runner ffmpeg in_path out_path td fps
          max_w dither).2 ∧
      (∀ s, Command.shell s ∉
        invoked (make_gif_im which runner ffmpeg in_path out_path td fps
          max_w dither).2)) ∧
    ((runner (extract_cmd ffmpeg in_path td fps max_w)).exitcode = 0 →
      (runner (palette_cmd ffmpeg in_path td fps max_w)).exitcode ≠ 0 →
      (invoked (make_gif_im which runner ffmpeg in_path out_path td fps
          max_w dither).2 = [] ∨
        invoked (make_gif_im which runner ffmpeg in_path out_path td fps
          max_w dither).2 =
          [extract_cmd ffmpeg in_path td fps max_w,
            palette_cmd ffmpeg in_path td fps max_w]) ∧
      (∀ s, Command.shell s ∉
        invoked (make_gif_im which runner ffmpeg in_path out_path td fps
          max_w dither).2)) := by
  constructor
  · intro h1
    cases hfind : find_imagemagick which with
    | none =>
      refine ⟨Or.inl ?_, ?_, ?_⟩ <;> simp [make_gif_im, hfind, invoked]
    | some im =>
      have hmk : (make_gif_im which runner ffmpeg in_path out_path td fps
          max_w dither).2 =
          [.ws_create,
            .invoke (extract_cmd ffmpeg in_path td fps max_w)
              (runner (extract_cmd ffmpeg in_path td fps max_w)).exitcode,
            .ws_delete] := by
        simp [make_gif_im, hfind, run_checked, h1]
      refine ⟨Or.inr ?_, ?_, ?_⟩
      · simp [hmk, invoked]
      · simp only [hmk, invoked, List.filterMap]
        simp [(extract_cmd_ne_palette_cmd ffmpeg in_path td fps max_w).symm]
      · intro s
        simp only [hmk, invoked, List.filterMap]
        simp [extract_cmd]
  · intro h1 h2
    cases hfind : find_imagemagick which with
    | none =>
      refine ⟨Or.inl ?_, ?_⟩ <;> simp [make_gif_im, hfind, invoked]
    | some im =>
      have hmk : (make_gif_im which runner ffmpeg in_path out_path td fps
          max_w dither).2 =
          [.ws_create,
            .invoke (extract_cmd ffmpeg in_path td fps max_w)
              (runner (extract_cmd ffmpeg in_path td fps max_w)).exitcode,
            .invoke (palette_cmd ffmpeg in_path td fps max_w)
              (runner (palette_cmd ffmpeg in_path td fps max_w)).exitcode,
            .ws_delete] := by
        simp [make_gif_im, hfind, run_checked, h1, h2]
      refine ⟨Or.inr ?_, ?_⟩
      · simp [hmk, invoked]
      · intro s
        simp only [hmk, invoked, List.filterMap]
        simp [extract_cmd, palette_cmd]

/-- Witness for C4: with the extract invocation failing, the only invoked
command of the whole call is the extract command. -/
theorem C4_sequential_witness :
    invoked (make_gif_im (fun s => if s = "magick" then some "im" else none)
        (fun c => if c = extract_cmd "ffmpeg" "in.webm" "/ws" 15 none
          then ⟨1, "", "boom"⟩ else ⟨0, "", ""⟩)
        "ffmpeg" "in.webm" "out.gif" "/ws" 15 none "Riemersma").2 = [] ∨
    invoked (make_gif_im (fun s => if s = "magick" then some "im" else none)
        (fun c => if c = extract_cmd "ffmpeg" "in.webm" "/ws" 15 none
          then ⟨1, "", "boom"⟩ else ⟨0, "", ""⟩)
        "ffmpeg" "in.webm" "out.gif" "/ws" 15 none "Riemersma").2 =
      [extract_cmd "ffmpeg" "in.webm" "/ws" 15 none] :=
  ((C4_sequential (fun s => if s = "magick" then some "im" else none)
      (fun c => if c = extract_cmd "ffmpeg" "in.webm" "/ws" 15 none
        then ⟨1, "", "boom"⟩ else ⟨0, "", ""⟩)
      "ffmpeg" "in.webm" "out.gif" "/ws" "Riemersma" 15 none).1
    (by decide)).1

/-- Claim C5: the Workspace never outlives one Pipeline Executor call: on
every execution the event trace is either empty (the tool-locator failure,
raised before the workspace is created) or starts with the workspace
creation, ends with the workspace removal (which deletes the directory and
all intermediate files in it), and holds nothing but external invocations
in between — so the workspace is deleted before the Executor returns on
success and on every failure path. -/
theorem C5_workspace (which : String → Option String)
    (runner : Command → ProcResult)
    (ffmpeg in_path out_path td dither : String) (fps : ℕ)
    (max_w : Option ℕ) :
    (make_gif_im which runner ffmpeg in_path out_path td fps max_w
        dither).2 = [] ∨
    ∃ mid,
      (make_gif_im which runner ffmpeg in_path out_path td fps max_w
          dither).2 = .ws_create :: (mid ++ [.ws_delete]) ∧
      ∀ e ∈ mid, ∃ c k, e = Ev.invoke c k := by
  cases hfind : find_imagemagick which with
  | none => left; simp [make_gif_im, hfind]
  | some im =>
    right
    by_cases h1 : (runner (extract_cmd ffmpeg in_path td fps max_w)).exitcode = 0
    · by_cases h2 : (runner (palette_cmd ffmpeg in_path td fps max_w)).exitcode = 0
      · refine ⟨[.invoke (extract_cmd ffmpeg in_path td fps max_w)
            (runner (extract_cmd ffmpeg in_path td fps max_w)).exitcode,
          .invoke (palette_cmd ffmpeg in_path td fps max_w)
            (runner (palette_cmd ffmpeg in_path td fps max_w)).exitcode,
          .invoke (assemble_cmd im td out_path dither fps)
            (runner (assemble_cmd im td out_path dither fps)).exitcode],
          ?_, ?_⟩
        · by_cases h3 :
            (runner (assemble_cmd im td out_path dither fps)).exitcode = 0 <;>
            simp [make_gif_im, hfind, run_checked, h1, h2, h3]
        · rintro e he
          simp at he
          rcases he with he | he | he <;> exact ⟨_, _, he⟩
      · refine ⟨[.invoke (extract_cmd ffmpeg in_path td fps max_w)
            (runner (extract_cmd ffmpeg in_path td fps max_w)).exitcode,
          .invoke (palette_cmd ffmpeg in_path td fps max_w)
            (runner (palette_cmd ffmpeg in_path td fps max_w)).exitcode],
          ?_, ?_⟩
        · simp [make_gif_im, hfind, run_checked, h1, h2]
        · rintro e he
          simp at he
          rcases he with he | he <;> exact ⟨_, _, he⟩
    · refine ⟨[.invoke (extract_cmd ffmpeg in_path td fps max_w)
          (runner (extract_cmd ffmpeg in_path td fps max_w)).exitcode],
          ?_, ?_⟩
      · simp [make_gif_im, hfind, run_checked, h1]
      · rintro e he
        simp at he
        exact ⟨_, _, he⟩

/-- Witness for C5: a run in which every stage succeeds still ends by
removing the workspace. -/
theorem C5_workspace_witness :
    (make_gif_im (fun s => if s = "magick" then some "im" else none)
        (fun _ => ⟨0, "", ""⟩)
        "ffmpeg" "in.webm" "out.gif" "/ws" 15 none "Riemersma").2 = [] ∨
    ∃ mid,
      (make_gif_im (fun s => if s = "magick" then some "im" else none)
          (fun _ => ⟨0, "", ""⟩)
          "ffmpeg" "in.webm" "out.gif" "/ws" 15 none "Riemersma").2 =
        .ws_create :: (mid ++ [.ws_delete]) ∧
      ∀ e ∈ mid, ∃ c k, e = Ev.invoke c k :=
  C5_workspace (fun s => if s = "magick" then some "im" else none)
    (fun _ => ⟨0, "", ""⟩) "ffmpeg" "in.webm" "out.gif" "/ws" "Riemersma"
    15 none

/-- Claim C6: the Tool Locator returns the path of the preferred binary
name magick whenever the search-path lookup finds it, otherwise the result
of looking up the legacy name convert; and when neither is present the
conversion fails with the ToolNotFound error while the event trace stays
empty — no workspace is created and no external process of the pipeline is
spawned, so no stage is ever attempted. -/
theorem C6_tool_locator (which : String → Option String)
    (runner : Command → ProcResult)
    (ffmpeg in_path out_path td dither : String) (fps : ℕ)
    (max_w : Option ℕ) (p : String) :
    (which "magick" = some p → find_imagemagick which = some p) ∧
    (which "magick" = none → find_imagemagick which = which "convert") ∧
    (which "magick" = none → which "convert" = none →
      (make_gif_im which runner ffmpeg in_path out_path td fps max_w
          dither).1 = .error (.toolNotFound im_not_found_msg) ∧
      (make_gif_im which runner ffmpeg in_path out_path td fps max_w
          dither).2 = []) := by
  refine ⟨?_, ?_, ?_⟩
  · intro h; simp [find_imagemagick, h]
  · intro h; simp [find_imagemagick, h]
  · intro h1 h2
    have hf : find_imagemagick which = none := by
      simp [find_imagemagick, h1, h2]
    exact ⟨by simp [make_gif_im, hf], by simp [make_gif_im, hf]⟩

/-- Witness for C6: with an empty search path the call fails with
ToolNotFound and invokes nothing. -/
theorem C6_tool_locator_witness :
    (make_gif_im (fun _ => none) (fun _ => ⟨0, "", ""⟩)
        "ffmpeg" "in.webm" "out.gif" "/ws" 15 none "Riemersma").1 =
      .error (.toolNotFound im_not_found_msg) ∧
    (make_gif_im (fun _ => none) (fun _ => ⟨0, "", ""⟩)
        "ffmpeg" "in.webm" "out.gif" "/ws" 15 none "Riemersma").2 = [] :=
  (C6_tool_locator (fun _ => none) (fun _ => ⟨0, "", ""⟩)
    "ffmpeg" "in.webm" "out.gif" "/ws" "Riemersma" 15 none "p").2.2 rfl rfl

/-- Claim C7: a stage invocation that exits non-zero makes the Executor
fail with the StageFailed error (CalledProcessError) carrying the failed
invocation command — the three stage commands are pairwise distinct, so the
carried command identifies the stage — and the exact captured standard
error of that invocation; the pipeline aborts at that stage, and main shows
the user the captured standard-error text (whitespace-stripped, per
e.stderr.strip() of line 219). -/
theorem C7_stage_failed (which : String → Option String)
    (runner : Command → ProcResult)
    (ffmpeg in_path out_path td dither im fb : String) (fps : ℕ)
    (max_w : Option ℕ)
    (hfind : find_imagemagick which = some im) :
    ((runner (extract_cmd ffmpeg in_path td fps max_w)).exitcode ≠ 0 →
      (make_gif_im which runner ffmpeg in_path out_path td fps max_w
          dither).1 =
        .error (.stageFailed
          ⟨extract_cmd ffmpeg in_path td fps max_w,
            (runner (extract_cmd ffmpeg in_path td fps max_w)).exitcode,
            (runner (extract_cmd ffmpeg in_path td fps max_w)).out,
            (runner (extract_cmd ffmpeg in_path td fps max_w)).err⟩) ∧
      invoked (make_gif_im which runner ffmpeg in_path out_path td fps
          max_w dither).2 = [extract_cmd ffmpeg in_path td fps max_w]) ∧
    ((runner (extract_cmd ffmpeg in_path td fps max_w)).exitcode = 0 →
      (runner (palette_cmd ffmpeg in_path td fps max_w)).exitcode ≠ 0 →
      (make_gif_im which runner ffmpeg in_path out_path td fps max_w
          dither).1 =
        .error (.stageFailed
          ⟨palette_cmd ffmpeg in_path td fps max_w,
            (runner (palette_cmd ffmpeg in_path td fps max_w)).exitcode,
            (runner (palette_cmd ffmpeg in_path td fps max_w)).out,
            (runner (palette_cmd ffmpeg in_path td fps max_w)).err⟩) ∧
      invoked (make_gif_im which runner ffmpeg in_path out_path td fps
          max_w dither).2 =
        [extract_cmd ffmpeg in_path td fps max_w,
          palette_cmd ffmpeg in_path td fps max_w]) ∧
    ((runner (extract_cmd ffmpeg in_path td fps max_w)).exitcode = 0 →
      (runner (palette_cmd ffmpeg in_path td fps max_w)).exitcode = 0 →
      (runner (assemble_cmd im td out_path dither fps)).exitcode ≠ 0 →
      (make_gif_im which runner ffmpeg in_path out_path td fps max_w
          dither).1 =
        .error (.stageFailed
          ⟨assemble_cmd im td out_path dither fps,
            (runner (assemble_cmd im td out_path dither fps)).exitcode,
            (runner (assemble_cmd im td out_path dither fps)).out,
            (runner (assemble_cmd im td out_path dither fps)).err⟩)) ∧
    (extract_cmd ffmpeg in_path td fps max_w ≠
        palette_cmd ffmpeg in_path td fps max_w ∧
      extract_cmd ffmpeg in_path td fps max_w ≠
        assemble_cmd im td out_path dither fps ∧
      palette_cmd ffmpeg in_path td fps max_w ≠
        assemble_cmd im td out_path dither fps) ∧
    (∀ e : CalledProcessError, e.stderr ≠ "" →
      report_conversion_failure fb e =
        "Conversion failed:\n" ++ py_strip e.stderr) := by
  refine ⟨?_, ?_, ?_, ⟨extract_cmd_ne_palette_cmd ffmpeg in_path td fps
    max_w, by simp [extract_cmd, assemble_cmd],
    by simp [palette_cmd, assemble_cmd]⟩, ?_⟩
  · intro h1
    constructor
    · simp [make_gif_im, hfind, run_checked, h1]
    · simp [make_gif_im, hfind, run_checked, h1, invoked]
  · intro h1 h2
    constructor
    · simp [make_gif_im, hfind, run_checked, h1, h2]
    · simp [make_gif_im, hfind, run_checked, h1, h2, invoked]
  · intro h1 h2 h3
    simp [make_gif_im, hfind, run_checked, h1, h2, h3]
  · intro e he
    simp [report_conversion_failure, he]

/-- Witness for C7: with the extract invocation failing with exit status 1
and standard error "boom", the Executor fails with the StageFailed error
carrying the extract command and that standard error. -/
theorem C7_stage_failed_witness :
    (make_gif_im (fun s => if s = "magick" then some "im" else none)
        (fun c => if c = extract_cmd "ffmpeg" "in.webm" "/ws" 15 none
          then ⟨1, "", "boom"⟩ else ⟨0, "", ""⟩)
        "ffmpeg" "in.webm" "out.gif" "/ws" 15 none "Riemersma").1 =
      .error (.stageFailed
        ⟨extract_cmd "ffmpeg" "in.webm" "/ws" 15 none, 1, "", "boom"⟩) :=
  ((C7_stage_failed (fun s => if s = "magick" then some "im" else none)
      (fun c => if c = extract_cmd "ffmpeg" "in.webm" "/ws" 15 none
        then ⟨1, "", "boom"⟩ else ⟨0, "", ""⟩)
      "ffmpeg" "in.webm" "out.gif" "/ws" "Riemersma" "im" "fb" 15 none
      (by decide)).1 (by decide)).1

/-- Claim C8: blank or cancelled fps input resolves to the default 15,
blank max-width input resolves to no width constraint (the resize clause is
omitted from the filter chain); every integer the numeric prompts return
lies in the advertised range (1 to 60 for fps, 32 to 4096 for max width);
and out-of-range or unparsable input is re-prompted — the loop moves on to
the next response — rather than returned. -/
theorem C8_parameter_collection (inputs l : List (Option String))
    (s : String) (n : ℤ) :
    (main_fps_prompt inputs = some (some n) → 1 ≤ n ∧ n ≤ 60) ∧
    (main_maxw_prompt inputs = some (some n) → 32 ≤ n ∧ n ≤ 4096) ∧
    main_fps_prompt (none :: l) = some none ∧
    (py_strip s = "" → main_fps_prompt (some s :: l) = some none) ∧
    resolve_fps none = 15 ∧
    (∀ fps : ℕ, vf fps none = fps_clause fps ++ "," ++ format_clause) ∧
    (py_strip s ≠ "" → py_int? (py_strip s) = none →
      main_fps_prompt (some s :: l) = main_fps_prompt l) ∧
    (∀ m : ℤ, py_int? (py_strip s) = some m → (m < 1 ∨ 60 < m) →
      main_fps_prompt (some s :: l) = main_fps_prompt l) := by
  refine ⟨fun h => ask_number_int_range 1 60 inputs n h,
    fun h => ask_number_int_range 32 4096 inputs n h,
    by simp [main_fps_prompt, ask_number_int],
    ?_, rfl, ?_, ?_, ?_⟩
  · intro hb
    simp [main_fps_prompt, ask_number_int, hb]
  · intro fps
    simp [vf, build_filters, String.intercalate, String.intercalate.go]
  · intro hb hp
    simp [main_fps_prompt, ask_number_int, hb, hp]
  · intro m hp hout
    have hb : py_strip s ≠ "" := by
      intro hb
      rw [hb] at hp
      simp [py_int?, py_digits_ok] at hp
    simp [main_fps_prompt, ask_number_int, hb, hp, hout]

/-- Witness for C8: the response sequence 100, then 24 is re-prompted once
and returns 24, which the theorem places inside the fps range. -/
theorem C8_parameter_collection_witness :
    1 ≤ (24 : ℤ) ∧ (24 : ℤ) ≤ 60 :=
  (C8_parameter_collection [some "100", some "24"] [] "" 24).1 (by decide)

/-- Claim C9: the assemble stage applies the caller-chosen dithering
algorithm — the -dither slot of the assemble command line is exactly the
dither argument — the program (main, line 201) chooses Riemersma as its
default, and the classic FloydSteinberg algorithm is selectable by passing
it instead. -/
theorem C9_dither (which : String → Option String)
    (runner : Command → ProcResult)
    (ffmpeg in_path out_path td dither im : String) (fps : ℕ)
    (max_w : Option ℕ)
    (hfind : find_imagemagick which = some im)
    (hok : ∀ c, (runner c).exitcode = 0) :
    assemble_cmd im td out_path dither fps =
      .shell (("\"" ++ im ++ "\" -delay " ++ toString (delay_cs fps) ++
        " -loop 0 \"" ++ frames_glob td ++ "\" -remap \"" ++
        palette_path td ++ "\"") ++ " -dither " ++ dither ++
        (" -layers OptimizeTransparency \"" ++ out_path ++ "\"")) ∧
    main_dither = "Riemersma" ∧
    assemble_cmd im td out_path "FloydSteinberg" fps =
      .shell (("\"" ++ im ++ "\" -delay " ++ toString (delay_cs fps) ++
        " -loop 0 \"" ++ frames_glob td ++ "\" -remap \"" ++
        palette_path td ++ "\"") ++ " -dither " ++ "FloydSteinberg" ++
        (" -layers OptimizeTransparency \"" ++ out_path ++ "\"")) ∧
    assemble_cmd im td out_path main_dither fps ∈
      invoked (main_make_gif which runner ffmpeg in_path out_path td fps
        max_w).2 := by
  refine ⟨?_, rfl, ?_, ?_⟩
  · simp [assemble_cmd, String.append_assoc]
  · simp only [assemble_cmd, Command.shell.injEq]
    simp [String.append_assoc]
    rfl
  · simp [main_make_gif, make_gif_im, hfind, run_checked, hok, invoked]

/-- Witness for C9: a fully successful run of the conversion main performs
invokes the assemble command built with the Riemersma dithering choice. -/
theorem C9_dither_witness :
    assemble_cmd "im" "/ws" "out.gif" main_dither 15 ∈
      invoked (main_make_gif (fun s => if s = "magick" then some "im" else none)
        (fun _ => ⟨0, "", ""⟩) "ffmpeg" "in.webm" "out.gif" "/ws" 15
        none).2 :=
  (C9_dither (fun s => if s = "magick" then some "im" else none)
    (fun _ => ⟨0, "", ""⟩) "ffmpeg" "in.webm" "out.gif" "/ws" "Riemersma"
    "im" 15 none (by decide) (fun _ => rfl)).2.2.2

/-- Claim C10: the input-extension check is case-insensitive — the
continue-anyway confirmation is shown exactly when the lowercased selected
path does not end with ".webm"; in particular "CLIP.WEBM" proceeds without
confirmation. -/
theorem C10_ext_check (p : String) :
    (ext_check_needs_confirm p = false ↔
      py_endswith (py_lower p) ".webm" = true) ∧
    ext_check_needs_confirm "CLIP.WEBM" = false ∧
    ext_check_needs_confirm "clip.webm" = false ∧
    ext_check_needs_confirm "Clip.WebM" = false ∧
    ext_check_needs_confirm "clip.mp4" = true := by
  refine ⟨?_, by decide, by decide, by decide, by decide⟩
  simp [ext_check_needs_confirm]

/-- Witness for C10: the upper-case name CLIP.WEBM passes without the
confirmation dialog. -/
theorem C10_ext_check_witness : ext_check_needs_confirm "CLIP.WEBM" = false :=
  (C10_ext_check "CLIP.WEBM").2.1

end Webm2Gif
